import Mathlib

/-!
Shallow embedding of the FerretDB PostgreSQL loader shim
(`ferretdb_loader.c`, two build variants: `ferretdb-bw` and
`ferretdb-extension`).

Each variant consists of two C functions:
  * `background_main` (the Loader/Trampoline): unblocks signals, joins the
    host library directory with the fixed file name `ferretdb.so`, logs the
    resolved path, `dlopen`s it with `RTLD_NOW | RTLD_GLOBAL`, frees the path
    buffer, `dlsym`s the fixed entry symbol `BackgroundWorkerMain`, calls the
    resulting pointer with the opaque start argument, closes the handle and
    exits.  The C code performs no null check on either the handle or the
    function pointer.
  * `_PG_init` (the Registrar): zero-initializes a `BackgroundWorker`
    descriptor, fills the fixed fields and submits it.

The Loader is embedded as a function from an environment (library directory,
opaque start argument, and a dynamic-loader oracle saying whether the load
succeeds and whether the library exports the entry symbol) to the list of
observable events of the run.  A call through a null function pointer is
undefined behavior; the model records that call event and ends the run there,
which is the observable crash of the worker process.
-/

/-- Log severities used by the two variants (PostgreSQL `elog` levels). -/
inductive Severity where
  | DEBUG1
  | LOG
  deriving DecidableEq, Repr

/-- Flags passed to `dlopen`: `now` is `RTLD_NOW` (eager, non-lazy symbol
resolution) and `globalVis` is `RTLD_GLOBAL` (global symbol visibility). -/
structure DlFlags where
  now : Bool
  globalVis : Bool
  deriving DecidableEq, Repr

/-- Observable events of one run of the loader worker process.  The `Option
Unit` in `dlsymCall`, `entryCall` and `dlcloseCall` is the pointer value:
`none` is the NULL pointer.  `entryCall none` is a call through a null
function pointer, i.e. undefined behavior. -/
inductive Event where
  | unblockSignals : Event
  | palloc (size : Nat) : Event
  | joinPath (result : String) : Event
  | logLine (sev : Severity) (fmt : String) (arg : String) : Event
  | dlopenCall (path : String) (flags : DlFlags) : Event
  | pfree : Event
  | dlsymCall (handle : Option Unit) (sym : String) : Event
  | entryCall (fn : Option Unit) (arg : Nat) : Event
  | dlcloseCall (handle : Option Unit) : Event
  | procExit (code : Nat) : Event
  deriving DecidableEq, Repr

/-- Environment of one worker run: the host library directory
(`pkglib_path`), the opaque per-worker start argument (the `Datum`
`main_arg`, a machine word, modelled as `Nat`), and the dynamic-loader
oracle: whether the `dlopen` of the resolved path succeeds (`loadOk`),
whether the loaded library exports `BackgroundWorkerMain`
(`libExportsEntry`), and what `dlsym` yields on the NULL handle
(`nullHandleLookup`; on glibc a NULL handle is `RTLD_DEFAULT`, so the lookup
searches the default global scope and may even succeed). -/
structure Env where
  pkglib_path : String
  mainArg : Nat
  loadOk : Bool
  libExportsEntry : Bool
  nullHandleLookup : Option Unit
  deriving Repr

/-- Modelled from the spec: PostgreSQL's canonical path-joining rule
`join_path_components` is a host function, not part of this repository's
sources.  Per the spec it produces the canonical join of a directory and a
file name: no double separators, correct handling of a trailing separator in
the directory (not naive string concatenation). -/
def join_path_components (head tail : String) : String :=
  if head = "" then tail
  else if head.data.getLast? = some '/' then head ++ tail
  else head ++ "/" ++ tail

/-- Model of `dlopen`: returns a handle exactly when the environment says the
load succeeds (file present, dependencies resolved, compatible binary).  A
`none` result is the NULL handle. -/
def dlopenModel (e : Env) (_path : String) (_flags : DlFlags) : Option Unit :=
  if e.loadOk then some () else none

/-- Model of `dlsym`: on a real handle it finds the entry exactly when the
loaded library exports the requested symbol; on the NULL handle the result is
the environment's default-scope oracle (glibc treats a NULL handle as
`RTLD_DEFAULT`). -/
def dlsymModel (e : Env) (handle : Option Unit) (sym : String) : Option Unit :=
  match handle with
  | some _ => if e.libExportsEntry && sym == "BackgroundWorkerMain" then some () else none
  | none => e.nullHandleLookup

/-- Fixed library file name: `static char *ferretdb_so = "ferretdb.so"` in
the ferretdb-bw variant. -/
def ferretdb_so : String := "ferretdb.so"

/-- Fixed library file name: `static char *ferretdb_lib = "ferretdb.so"` in
the ferretdb-extension variant. -/
def ferretdb_lib : String := "ferretdb.so"

/-- Trace of one run of `background_main` in the ferretdb-bw variant
(`src/build/ferretdb-bw/ferretdb_loader/ferretdb_loader.c`):
`BackgroundWorkerUnblockSignals(); palloc; join_path_components;
elog(LOG, ...); dlopen(path, RTLD_NOW | RTLD_GLOBAL); pfree(path);
f = dlsym(h, "BackgroundWorkerMain"); f(main_arg); dlclose(h); proc_exit(0)`.
If `dlsym` yielded NULL, the call `f(main_arg)` is a null-pointer call
(undefined behavior) and the run ends there. -/
def background_main_bw (e : Env) : List Event :=
  let path := join_path_components e.pkglib_path ferretdb_so
  let h := dlopenModel e path ⟨true, true⟩
  let f := dlsymModel e h "BackgroundWorkerMain"
  [Event.unblockSignals,
   Event.palloc (e.pkglib_path.length + 1 + ferretdb_so.length + 1),
   Event.joinPath path,
   Event.logLine Severity.LOG "ferretdb_loader: loading \x27%s\x27" path,
   Event.dlopenCall path ⟨true, true⟩,
   Event.pfree,
   Event.dlsymCall h "BackgroundWorkerMain"] ++
  match f with
  | none => [Event.entryCall none e.mainArg]
  | some u => [Event.entryCall (some u) e.mainArg,
               Event.dlcloseCall h,
               Event.procExit 0]

/-- Trace of one run of `background_main` in the ferretdb-extension variant
(`src/build/ferretdb-extension/ferretdb_loader/ferretdb_loader.c`): same
statements as the bw variant except the log line uses severity `DEBUG1` and
the format `"ferretdb_loader: loading go shared lib \"%s\""`, and the normal
completion path calls `proc_exit(2)` instead of `proc_exit(0)`. -/
def background_main_ext (e : Env) : List Event :=
  let golib_path := join_path_components e.pkglib_path ferretdb_lib
  let handle := dlopenModel e golib_path ⟨true, true⟩
  let entrypt := dlsymModel e handle "BackgroundWorkerMain"
  [Event.unblockSignals,
   Event.palloc (e.pkglib_path.length + 1 + ferretdb_lib.length + 1),
   Event.joinPath golib_path,
   Event.logLine Severity.DEBUG1 "ferretdb_loader: loading go shared lib \"%s\"" golib_path,
   Event.dlopenCall golib_path ⟨true, true⟩,
   Event.pfree,
   Event.dlsymCall handle "BackgroundWorkerMain"] ++
  match entrypt with
  | none => [Event.entryCall none e.mainArg]
  | some u => [Event.entryCall (some u) e.mainArg,
               Event.dlcloseCall handle,
               Event.procExit 2]

/-- Background-worker start-time policies of the host (PostgreSQL
`BgWorkerStartTime`); the zero value is `PostmasterStart`. -/
inductive BgwStartTime where
  | PostmasterStart
  | ConsistentState
  | RecoveryFinished
  deriving DecidableEq, Repr

/-- Capability flags of a background worker (PostgreSQL `bgw_flags` bits). -/
inductive BgwFlag where
  | SHMEM_ACCESS
  | BACKEND_DATABASE_CONNECTION
  deriving DecidableEq, Repr

/-- Host constant `BGW_NEVER_RESTART` (-1): never auto-restart the worker. -/
def BGW_NEVER_RESTART : Int := -1

/-- Host constant `BGW_MAXLEN`: size of the fixed-size string fields of a
worker descriptor. -/
def BGW_MAXLEN : Nat := 96

/-- The host's background-worker descriptor (PostgreSQL `BackgroundWorker`),
restricted to the fields this shim touches plus the opaque main argument. -/
structure BackgroundWorker where
  bgw_name : String
  bgw_flags : List BgwFlag
  bgw_start_time : BgwStartTime
  bgw_restart_time : Int
  bgw_library_name : String
  bgw_function_name : String
  bgw_main_arg : Nat
  deriving DecidableEq, Repr

/-- `MemSet(&worker, 0, sizeof(BackgroundWorker))`: the zero-initialized
descriptor (empty strings, no flags, enum value 0, zero times). -/
def zeroWorker : BackgroundWorker :=
  ⟨"", [], BgwStartTime.PostmasterStart, 0, "", "", 0⟩

/-- `snprintf` into a `BGW_MAXLEN`-byte field keeps at most
`BGW_MAXLEN - 1` characters of the formatted string. -/
def snprintf_bgw (s : String) : String := String.mk (s.data.take (BGW_MAXLEN - 1))

/-- The worker descriptor built by `_PG_init` in the ferretdb-bw variant:
zero-initialize, then fill name, flags, start policy, restart policy and the
library/function pair. -/
def pginit_worker_bw : BackgroundWorker :=
  { zeroWorker with
      bgw_name := snprintf_bgw "FerretDBLoader",
      bgw_flags := [BgwFlag.SHMEM_ACCESS],
      bgw_start_time := BgwStartTime.RecoveryFinished,
      bgw_restart_time := BGW_NEVER_RESTART,
      bgw_library_name := snprintf_bgw "ferretdb_loader",
      bgw_function_name := snprintf_bgw "background_main" }

/-- The worker descriptor built by `_PG_init` in the ferretdb-extension
variant (textually identical to the bw variant's). -/
def pginit_worker_ext : BackgroundWorker :=
  { zeroWorker with
      bgw_name := snprintf_bgw "FerretDBLoader",
      bgw_flags := [BgwFlag.SHMEM_ACCESS],
      bgw_start_time := BgwStartTime.RecoveryFinished,
      bgw_restart_time := BGW_NEVER_RESTART,
      bgw_library_name := snprintf_bgw "ferretdb_loader",
      bgw_function_name := snprintf_bgw "background_main" }

/-- Descriptors the bw variant's `_PG_init` submits to
`RegisterBackgroundWorker`: exactly one. -/
def pginit_submissions_bw : List BackgroundWorker := [pginit_worker_bw]

/-- Descriptors the extension variant's `_PG_init` submits to
`RegisterBackgroundWorker`: exactly one. -/
def pginit_submissions_ext : List BackgroundWorker := [pginit_worker_ext]

/-- Classifier: is this event the signal-unblocking step. -/
def isUnblock : Event → Bool
  | Event.unblockSignals => true
  | _ => false

/-- Classifier: is this event the path-resolution (join) step. -/
def isJoin : Event → Bool
  | Event.joinPath _ => true
  | _ => false

/-- Classifier: is this event a diagnostic log line. -/
def isLog : Event → Bool
  | Event.logLine _ _ _ => true
  | _ => false

/-- Classifier: is this event the dynamic-load (`dlopen`) attempt. -/
def isDlopen : Event → Bool
  | Event.dlopenCall _ _ => true
  | _ => false

/-- Classifier: is this event the freeing of the path buffer. -/
def isPfree : Event → Bool
  | Event.pfree => true
  | _ => false

/-- Classifier: is this event a call through the looked-up entry pointer. -/
def isEntryCall : Event → Bool
  | Event.entryCall _ _ => true
  | _ => false

/-- Classifier: is this event the closing of the library handle. -/
def isDlclose : Event → Bool
  | Event.dlcloseCall _ => true
  | _ => false

/-- Canonicalize exactly the two parameters the spec calls variant
parameters: the log severity and the exit status. -/
def eraseClaimedVariant : Event → Event
  | Event.logLine _ fmt arg => Event.logLine Severity.LOG fmt arg
  | Event.procExit _ => Event.procExit 0
  | ev => ev

/-- Canonicalize the log severity, the log message format text, and the exit
status; the logged path argument is preserved. -/
def eraseFullVariant : Event → Event
  | Event.logLine _ _ arg => Event.logLine Severity.LOG "%s" arg
  | Event.procExit _ => Event.procExit 0
  | ev => ev

/-- The joined path, including its terminating NUL byte, fits in the buffer
the loader allocates for it (`strlen(pkglib_path) + 1 + strlen(name) + 1`
bytes). -/
theorem join_path_components_length_le (head tail : String) :
    (join_path_components head tail).length + 1 ≤ head.length + 1 + tail.length + 1 := by
  have hs : ("/" : String).length = 1 := rfl
  unfold join_path_components
  split
  · omega
  · split
    · simp only [String.length_append]
      omega
    · simp only [String.length_append]
      omega

/-- Claim C1 is refuted on the code: when the library loads but does not
export `BackgroundWorkerMain`, both variants call the NULL function pointer
returned by `dlsym` with the start argument — undefined behavior — instead of
terminating without that call. -/
theorem claim_C1_null_pointer_is_called :
    Event.entryCall none 0 ∈ background_main_bw ⟨"/opt/pg/lib", 0, true, false, none⟩ ∧
    Event.entryCall none 0 ∈ background_main_ext ⟨"/opt/pg/lib", 0, true, false, none⟩ := by
  decide

/-- Claim C2 is refuted on the code: when `dlopen` fails, both variants still
perform the `dlsym` lookup on the NULL handle and then call the looked-up
pointer.  With the entry symbol absent from the default scope that call is a
null-pointer call (undefined behavior); and when the default scope does
resolve the symbol (glibc treats a NULL handle as `RTLD_DEFAULT`), the loader
even invokes an entry point although the load failed. -/
theorem claim_C2_lookup_and_call_on_failed_handle :
    (Event.dlsymCall none "BackgroundWorkerMain" ∈
        background_main_bw ⟨"/opt/pg/lib", 0, false, false, none⟩ ∧
      Event.entryCall none 0 ∈ background_main_bw ⟨"/opt/pg/lib", 0, false, false, none⟩) ∧
    (Event.dlsymCall none "BackgroundWorkerMain" ∈
        background_main_ext ⟨"/opt/pg/lib", 0, false, false, none⟩ ∧
      Event.entryCall none 0 ∈ background_main_ext ⟨"/opt/pg/lib", 0, false, false, none⟩) ∧
    Event.entryCall (some ()) 0 ∈ background_main_bw ⟨"/opt/pg/lib", 0, false, false, some ()⟩ := by
  decide

/-- Claim C3: on every run where the library loads and exports the entry
symbol, the entry function is invoked exactly once, receives exactly the
opaque start argument the worker process was given, and the library handle is
closed exactly once after that call returns, after which the process exits
(status 0 in the bw variant, 2 in the extension variant). -/
theorem claim_C3_success_path (e : Env)
    (hload : e.loadOk = true) (hexp : e.libExportsEntry = true) :
    (∃ pre, background_main_bw e = pre ++
        [Event.entryCall (some ()) e.mainArg, Event.dlcloseCall (some ()), Event.procExit 0] ∧
      pre.countP isEntryCall = 0 ∧ pre.countP isDlclose = 0) ∧
    (∃ pre, background_main_ext e = pre ++
        [Event.entryCall (some ()) e.mainArg, Event.dlcloseCall (some ()), Event.procExit 2] ∧
      pre.countP isEntryCall = 0 ∧ pre.countP isDlclose = 0) := by
  constructor
  · refine ⟨[Event.unblockSignals,
      Event.palloc (e.pkglib_path.length + 1 + ferretdb_so.length + 1),
      Event.joinPath (join_path_components e.pkglib_path ferretdb_so),
      Event.logLine Severity.LOG "ferretdb_loader: loading \x27%s\x27"
        (join_path_components e.pkglib_path ferretdb_so),
      Event.dlopenCall (join_path_components e.pkglib_path ferretdb_so) ⟨true, true⟩,
      Event.pfree,
      Event.dlsymCall (some ()) "BackgroundWorkerMain"], ?_, ?_, ?_⟩
    · simp [background_main_bw, dlopenModel, dlsymModel, hload, hexp]
    · simp [isEntryCall, List.countP_cons]
    · simp [isDlclose, List.countP_cons]
  · refine ⟨[Event.unblockSignals,
      Event.palloc (e.pkglib_path.length + 1 + ferretdb_lib.length + 1),
      Event.joinPath (join_path_components e.pkglib_path ferretdb_lib),
      Event.logLine Severity.DEBUG1 "ferretdb_loader: loading go shared lib \"%s\""
        (join_path_components e.pkglib_path ferretdb_lib),
      Event.dlopenCall (join_path_components e.pkglib_path ferretdb_lib) ⟨true, true⟩,
      Event.pfree,
      Event.dlsymCall (some ()) "BackgroundWorkerMain"], ?_, ?_, ?_⟩
    · simp [background_main_ext, dlopenModel, dlsymModel, hload, hexp]
    · simp [isEntryCall, List.countP_cons]
    · simp [isDlclose, List.countP_cons]

/-- Witness for claim C3 at a concrete run: directory `/opt/pg/lib`, start
argument 7, load succeeds, entry symbol exported. -/
theorem claim_C3_success_path_witness :
    (∃ pre, background_main_bw ⟨"/opt/pg/lib", 7, true, true, none⟩ = pre ++
        [Event.entryCall (some ()) 7, Event.dlcloseCall (some ()), Event.procExit 0] ∧
      pre.countP isEntryCall = 0 ∧ pre.countP isDlclose = 0) ∧
    (∃ pre, background_main_ext ⟨"/opt/pg/lib", 7, true, true, none⟩ = pre ++
        [Event.entryCall (some ()) 7, Event.dlcloseCall (some ()), Event.procExit 2] ∧
      pre.countP isEntryCall = 0 ∧ pre.countP isDlclose = 0) :=
  claim_C3_success_path ⟨"/opt/pg/lib", 7, true, true, none⟩ rfl rfl

/-- Claim C4: both variants submit exactly one worker descriptor, and it has
restart policy `BGW_NEVER_RESTART`, start policy `RecoveryFinished`, the
shared-memory-access capability flag, library name `ferretdb_loader` and
function name `background_main`; the registrar takes no input, so none of
these fields is configurable (the two variants build the same constant
descriptor). -/
theorem claim_C4_descriptor_fields :
    pginit_submissions_bw = [pginit_worker_bw] ∧
    pginit_submissions_ext = [pginit_worker_ext] ∧
    pginit_worker_bw.bgw_restart_time = BGW_NEVER_RESTART ∧
    pginit_worker_bw.bgw_start_time = BgwStartTime.RecoveryFinished ∧
    BgwFlag.SHMEM_ACCESS ∈ pginit_worker_bw.bgw_flags ∧
    pginit_worker_bw.bgw_name = "FerretDBLoader" ∧
    pginit_worker_bw.bgw_library_name = "ferretdb_loader" ∧
    pginit_worker_bw.bgw_function_name = "background_main" ∧
    pginit_worker_ext = pginit_worker_bw := by
  decide

/-- Claim C5: in every run of either variant, the signal-unblocking step is
executed exactly once and strictly before the (unique) dynamic-load attempt,
and also before path resolution and before the diagnostic log line. -/
theorem claim_C5_unblock_before_load (e : Env) :
    ((background_main_bw e).countP isUnblock = 1 ∧
     (background_main_bw e).countP isDlopen = 1 ∧
     (background_main_bw e).findIdx isUnblock < (background_main_bw e).findIdx isDlopen ∧
     (background_main_bw e).findIdx isUnblock < (background_main_bw e).findIdx isJoin ∧
     (background_main_bw e).findIdx isUnblock < (background_main_bw e).findIdx isLog) ∧
    ((background_main_ext e).countP isUnblock = 1 ∧
     (background_main_ext e).countP isDlopen = 1 ∧
     (background_main_ext e).findIdx isUnblock < (background_main_ext e).findIdx isDlopen ∧
     (background_main_ext e).findIdx isUnblock < (background_main_ext e).findIdx isJoin ∧
     (background_main_ext e).findIdx isUnblock < (background_main_ext e).findIdx isLog) := by
  have hfl : ferretdb_lib = ferretdb_so := rfl
  cases hf : dlsymModel e (dlopenModel e (join_path_components e.pkglib_path ferretdb_so)
      ⟨true, true⟩) "BackgroundWorkerMain" <;>
    simp [background_main_bw, background_main_ext, hfl, hf, isUnblock, isDlopen, isJoin, isLog,
      List.countP_cons, List.findIdx_cons]

/-- Claim C6: in every run of either variant — in particular also when the
subsequent load fails — exactly one diagnostic log line is emitted, it names
the resolved library path, and it is emitted strictly before the (unique)
dynamic-load attempt. -/
theorem claim_C6_one_log_line_before_load (e : Env) :
    ((background_main_bw e).countP isLog = 1 ∧
     Event.logLine Severity.LOG "ferretdb_loader: loading \x27%s\x27"
        (join_path_components e.pkglib_path ferretdb_so) ∈ background_main_bw e ∧
     (background_main_bw e).countP isDlopen = 1 ∧
     (background_main_bw e).findIdx isLog < (background_main_bw e).findIdx isDlopen) ∧
    ((background_main_ext e).countP isLog = 1 ∧
     Event.logLine Severity.DEBUG1 "ferretdb_loader: loading go shared lib \"%s\""
        (join_path_components e.pkglib_path ferretdb_lib) ∈ background_main_ext e ∧
     (background_main_ext e).countP isDlopen = 1 ∧
     (background_main_ext e).findIdx isLog < (background_main_ext e).findIdx isDlopen) := by
  have hfl : ferretdb_lib = ferretdb_so := rfl
  cases hf : dlsymModel e (dlopenModel e (join_path_components e.pkglib_path ferretdb_so)
      ⟨true, true⟩) "BackgroundWorkerMain" <;>
    simp [background_main_bw, background_main_ext, hfl, hf, isLog, isDlopen,
      List.countP_cons, List.findIdx_cons]

/-- Claim C7: in every run of either variant the library locator is resolved
exactly once, and the resolved locator is the canonical path join of the host
library directory with the fixed file name `ferretdb.so`; the canonical join
produces no double separator and handles a trailing separator in the
directory (shown on the spec's example directory). -/
theorem claim_C7_single_canonical_resolution (e : Env) :
    ((background_main_bw e).countP isJoin = 1 ∧
     Event.joinPath (join_path_components e.pkglib_path ferretdb_so) ∈ background_main_bw e) ∧
    ((background_main_ext e).countP isJoin = 1 ∧
     Event.joinPath (join_path_components e.pkglib_path ferretdb_lib) ∈ background_main_ext e) ∧
    join_path_components "/opt/pg/lib" ferretdb_so = "/opt/pg/lib/ferretdb.so" ∧
    join_path_components "/opt/pg/lib/" ferretdb_so = "/opt/pg/lib/ferretdb.so" := by
  have hfl : ferretdb_lib = ferretdb_so := rfl
  refine ⟨?_, ?_, by decide, by decide⟩ <;>
    cases hf : dlsymModel e (dlopenModel e (join_path_components e.pkglib_path ferretdb_so)
        ⟨true, true⟩) "BackgroundWorkerMain" <;>
      simp [background_main_bw, background_main_ext, hfl, hf, isJoin, List.countP_cons]

/-- Claim C8: in every run of either variant there is exactly one
dynamic-load attempt, and it requests eager (non-lazy, `RTLD_NOW`) symbol
resolution together with global (`RTLD_GLOBAL`) symbol visibility. -/
theorem claim_C8_eager_global_flags (e : Env) :
    ((background_main_bw e).countP isDlopen = 1 ∧
     Event.dlopenCall (join_path_components e.pkglib_path ferretdb_so) ⟨true, true⟩ ∈
       background_main_bw e) ∧
    ((background_main_ext e).countP isDlopen = 1 ∧
     Event.dlopenCall (join_path_components e.pkglib_path ferretdb_lib) ⟨true, true⟩ ∈
       background_main_ext e) := by
  have hfl : ferretdb_lib = ferretdb_so := rfl
  cases hf : dlsymModel e (dlopenModel e (join_path_components e.pkglib_path ferretdb_so)
      ⟨true, true⟩) "BackgroundWorkerMain" <;>
    simp [background_main_bw, background_main_ext, hfl, hf, isDlopen, List.countP_cons]

/-- Claim C9 as stated is refuted: after canonicalizing exactly the two
parameters the claim allows to vary — the log severity and the exit status —
the traces of the two variants still differ on a concrete successful run,
because the diagnostic log line's message text also differs between the
variants. -/
theorem claim_C9_counterexample :
    (background_main_bw ⟨"/opt/pg/lib", 0, true, true, none⟩).map eraseClaimedVariant ≠
    (background_main_ext ⟨"/opt/pg/lib", 0, true, true, none⟩).map eraseClaimedVariant := by
  decide

/-- Claim C9 amended: the two variants are behaviorally equivalent on every
input up to three variant parameters — the exit status, the severity of the
diagnostic log line, and the log line's message text; the logged path
argument itself and all other observable steps and their order are
identical. -/
theorem claim_C9_amended_equivalence (e : Env) :
    (background_main_bw e).map eraseFullVariant =
    (background_main_ext e).map eraseFullVariant := by
  have hfl : ferretdb_lib = ferretdb_so := rfl
  cases hf : dlsymModel e (dlopenModel e (join_path_components e.pkglib_path ferretdb_so)
      ⟨true, true⟩) "BackgroundWorkerMain" <;>
    simp [background_main_bw, background_main_ext, hfl, hf, eraseFullVariant]

/-- Claim C10: in every run of either variant the loader allocates exactly
`length(directory) + 1 + length("ferretdb.so") + 1` bytes for the resolved
path, the joined path together with its terminator fits in that allocation,
and the buffer is freed exactly once, strictly before the entry point is
invoked. -/
theorem claim_C10_buffer_bound_and_single_free (e : Env) :
    (Event.palloc (e.pkglib_path.length + 1 + ferretdb_so.length + 1) ∈ background_main_bw e ∧
     (join_path_components e.pkglib_path ferretdb_so).length + 1 ≤
       e.pkglib_path.length + 1 + ferretdb_so.length + 1 ∧
     (background_main_bw e).countP isPfree = 1 ∧
     (background_main_bw e).countP isEntryCall = 1 ∧
     (background_main_bw e).findIdx isPfree < (background_main_bw e).findIdx isEntryCall) ∧
    (Event.palloc (e.pkglib_path.length + 1 + ferretdb_lib.length + 1) ∈ background_main_ext e ∧
     (join_path_components e.pkglib_path ferretdb_lib).length + 1 ≤
       e.pkglib_path.length + 1 + ferretdb_lib.length + 1 ∧
     (background_main_ext e).countP isPfree = 1 ∧
     (background_main_ext e).countP isEntryCall = 1 ∧
     (background_main_ext e).findIdx isPfree < (background_main_ext e).findIdx isEntryCall) := by
  have hfl : ferretdb_lib = ferretdb_so := rfl
  have hlen := join_path_components_length_le e.pkglib_path ferretdb_so
  cases hf : dlsymModel e (dlopenModel e (join_path_components e.pkglib_path ferretdb_so)
      ⟨true, true⟩) "BackgroundWorkerMain" <;>
    simp [background_main_bw, background_main_ext, hfl, hf, hlen, isPfree, isEntryCall,
      List.countP_cons, List.findIdx_cons]
